import Mathlib

/-!
Verification of the slide-navigator state machine implemented in
jquery.transitionable.js (the selector-aware revision of the plugin).

The DOM is abstracted to exactly the data the plugin inspects and mutates:
for each direct child of the managed container we keep its skip marker
(the class skip-fab-transitionable) and whether it is displayed
(css display not none).  A jQuery selector is modelled as a boolean
predicate on child positions, already resolved against the children; the
default selector .page-fab-transitionable matches every managed child,
i.e. the constant true predicate.  The cancelable beforeloop event is
modelled by a boolean input of a navigation call saying whether some
attached handler prevents the default (false when no handler is attached).
The asynchronous transitionend completion of a fade or slide effect is
modelled by a separate step, transitionEnd, acting on the recorded
outgoing child.
-/

/-- One direct child of the container: its skip marker and whether it is
currently displayed. -/
structure Slide where
  skip : Bool
  visible : Bool
deriving DecidableEq

/-- The plugin options after merging with the defaults object:
loop (default true), effect (default null), direction (default horizontal). -/
structure Options where
  loop : Bool
  effect : Option String
  direction : String
deriving DecidableEq

/-- The navigator instance: its options, the current index, the
transition-in-progress guard (this.earlyReturn in the source), the ordered
children of the container, and the position of the outgoing child whose
one-shot transitionend handler is still pending (none when no handler is
registered). -/
structure Transitionable where
  options : Options
  index : Nat
  earlyReturn : Bool
  slides : List Slide
  pending : Option Nat
deriving DecidableEq

/-- Observable outcome of one navigation call: whether the beforeloop event
was triggered and whether the completion callback already ran
(synchronously, i.e. the effect-less branch). -/
structure NavResult where
  firedBeforeLoop : Bool
  completed : Bool
deriving DecidableEq

/-- Skip marker of the child at position j (false when out of range: there
is no such child, so it carries no class). -/
def slideSkip (l : List Slide) (j : Nat) : Bool :=
  ((l.get? j).map Slide.skip).getD false

/-- Displayed flag of the child at position j (false when out of range). -/
def slideVisible (l : List Slide) (j : Nat) : Bool :=
  ((l.get? j).map Slide.visible).getD false

/-- Set the displayed flag of the child at position j, leaving every other
child untouched (jQuery css display on a single element). -/
def setVisible : List Slide → Nat → Bool → List Slide
  | [], _, _ => []
  | s :: rest, 0, b => { s with visible := b } :: rest
  | s :: rest, j + 1, b => s :: setVisible rest j b

/-- First position at or after s satisfying cond, scanning r further
positions; none when the scan runs out. -/
def findFirstAux (cond : Nat → Bool) : Nat → Nat → Option Nat
  | _, 0 => none
  | s, r + 1 => if cond s then some s else findFirstAux cond (s + 1) r

/-- elt.nextAll(selector).not(skip).first().index() of the source, with
cond bundling membership, the selector and the skip filter: the smallest
position j with s ≤ j < n and cond j; none plays the role of the jQuery
index() result -1 on an empty set. -/
def findFirstFrom (cond : Nat → Bool) (n s : Nat) : Option Nat :=
  findFirstAux cond s (n - s)

/-- elt.prevAll(selector).not(skip).first().index() of the source: jQuery
prevAll lists preceding siblings nearest first, so first() is the largest
position j < i with cond j; none for the empty set. -/
def findLastBelow (cond : Nat → Bool) : Nat → Option Nat
  | 0 => none
  | i + 1 => if cond i then some i else findLastBelow cond i

/-- The candidate condition of the navigation: the position denotes an
actual child, it matches the selector, and it is not skip-marked. -/
def navCond (l : List Slide) (sel : Nat → Bool) (j : Nat) : Bool :=
  decide (j < l.length) && sel j && !(slideSkip l j)

/-- Lines 509-522 of the source: the index of the element we are
transitioning to.  Forward: nearest matching non-skip child after the
current one, else wrap to the first match overall.  Backward: nearest
matching non-skip child before the current one, else wrap to the last
match overall. -/
def computeNewIndex (st : Transitionable) (nav : String) (sel : Nat → Bool) : Option Nat :=
  let cond := navCond st.slides sel
  let n := st.slides.length
  if nav = "next" then
    match findFirstFrom cond n (st.index + 1) with
    | some j => some j
    | none => findFirstFrom cond n 0
  else
    match findLastBelow cond st.index with
    | some j => some j
    | none => findLastBelow cond n

/-- Argument normalization of the source: anything other than next or prev
falls back to the arbitrary default next. -/
def resolveNavigation (navigation : String) : String :=
  if navigation = "next" || navigation = "prev" then navigation else "next"

/-- Effect-argument normalization of the source: anything other than slide
or fade falls back to the instance option. -/
def resolveEffect (st : Transitionable) (effect : Option String) : Option String :=
  if effect = some "slide" || effect = some "fade" then effect else st.options.effect

/-- Line 530 of the source: the computed move is a wrap-around. -/
def isLoopMove (nav : String) (i ni : Nat) : Bool :=
  (nav = "next" && decide (ni < i)) || (nav = "prev" && decide (i < ni))

/-- The effect switch of _navigate (lines 545-596).  fade and slide show
the target, register a one-shot transitionend handler that will later hide
the outgoing child, and keep the guard set; any other resolved effect is
the default branch: show the target, hide the outgoing child, run the
callback and clear the guard immediately. -/
def applyEffect (st : Transitionable) (ni : Nat) (eff : Option String) (fired : Bool) :
    Transitionable × NavResult :=
  if eff = some "fade" || eff = some "slide" then
    ({ st with
        index := ni
        earlyReturn := true
        slides := setVisible st.slides ni true
        pending := some st.index },
     { firedBeforeLoop := fired, completed := false })
  else
    ({ st with
        index := ni
        earlyReturn := false
        slides := setVisible (setVisible st.slides ni true) st.index false
        pending := none },
     { firedBeforeLoop := fired, completed := true })

/-- The _navigate method (lines 464-597 of the source).  Rejects the call
while the guard is set; otherwise normalizes the arguments, computes the
target index, rejects when nothing matches or the target is the current
child, fires the cancelable beforeloop event on a wrap-around and rejects
when looping is disabled or prevented, and finally moves via the selected
effect.  On every synchronous reject path the source sets earlyReturn back
to false, which is what the returned record states. -/
def navigate (st : Transitionable) (navigation : String) (effect : Option String)
    (sel : Nat → Bool) (loopCanceled : Bool) : Transitionable × NavResult :=
  if st.earlyReturn then (st, { firedBeforeLoop := false, completed := false })
  else
    let nav := resolveNavigation navigation
    let eff := resolveEffect st effect
    match computeNewIndex st nav sel with
    | none => ({ st with earlyReturn := false }, { firedBeforeLoop := false, completed := false })
    | some ni =>
      if ni = st.index then
        ({ st with earlyReturn := false }, { firedBeforeLoop := false, completed := false })
      else if isLoopMove nav st.index ni then
        if !st.options.loop || loopCanceled then
          ({ st with earlyReturn := false }, { firedBeforeLoop := true, completed := false })
        else
          applyEffect st ni eff true
      else
        applyEffect st ni eff false

/-- The pending one-shot transitionend handler of a fade or slide effect:
hide the captured outgoing child, run the callback, clear the guard. -/
def transitionEnd (st : Transitionable) : Transitionable :=
  match st.pending with
  | some outg =>
    { st with
        slides := setVisible st.slides outg false
        earlyReturn := false
        pending := none }
  | none => st

/-- The public next method. -/
def Transitionable.next (st : Transitionable) (effect : Option String) (sel : Nat → Bool)
    (loopCanceled : Bool) : Transitionable × NavResult :=
  navigate st "next" effect sel loopCanceled

/-- The public prev method. -/
def Transitionable.prev (st : Transitionable) (effect : Option String) (sel : Nat → Bool)
    (loopCanceled : Bool) : Transitionable × NavResult :=
  navigate st "prev" effect sel loopCanceled

/-- The init method on a freshly attached container: DOM children are
displayed unless styled otherwise, and init sets display none on every
child but the first, leaving the first child as found.  The list records
the user-supplied skip markers of the children. -/
def initSlides : List Bool → List Slide
  | [] => []
  | k :: rest => { skip := k, visible := true } :: rest.map (fun k2 => { skip := k2, visible := false })

/-- The defaults object of the source. -/
def defaults : Options :=
  { loop := true, effect := none, direction := "horizontal" }

/-- State produced by init on a fresh attachment: index 0, guard cleared,
no pending handler, all children but the first hidden. -/
def initState (opts : Options) (skips : List Bool) : Transitionable :=
  { options := opts, index := 0, earlyReturn := false, slides := initSlides skips, pending := none }

/-- The caller-supplied options object: each field may be absent, in which
case jQuery extend keeps the default. -/
structure InputOptions where
  loop : Option Bool
  effect : Option (Option String)
  direction : Option String
deriving DecidableEq

/-- jQuery extend of the defaults object with the caller options. -/
def mergeDefaults (o : InputOptions) : Options :=
  { loop := o.loop.getD defaults.loop
    effect := o.effect.getD defaults.effect
    direction := o.direction.getD defaults.direction }

/-- The Transitionable constructor (lines 389-401): merge the options with
the defaults, throw on an invalid direction, then on an invalid effect,
and otherwise run init. -/
def Transitionable.new (o : InputOptions) (skips : List Bool) : Except String Transitionable :=
  let opts := mergeDefaults o
  if opts.direction = "horizontal" ∨ opts.direction = "vertical" then
    if opts.effect = some "slide" ∨ opts.effect = some "fade" ∨ opts.effect = none then
      Except.ok (initState opts skips)
    else
      Except.error "Invalid option effect. Must be slide or fade or null."
  else
    Except.error "Invalid option direction. Must be horizontal or vertical."

/-- A property of the plugin object as seen by the bracket lookup
plugin[options]: either one of the prototype methods, or one of the
instance fields set by the constructor and init.  Properties inherited
from the host Object prototype are outside the model. -/
inductive PropValue where
  | method (m : String)
  | elementRef
  | optionsRef
  | natField (v : Nat)
  | boolField (v : Bool)
deriving DecidableEq

/-- The prototype methods of the plugin. -/
def methodNames : List String :=
  ["_returnClassFromNavigationAndDirection", "_getOwnEltClasses", "init",
   "_navigate", "next", "prev", "destroy"]

/-- The bracket lookup plugin[name]. -/
def pluginProp (st : Transitionable) (name : String) : Option PropValue :=
  if name = "element" then some PropValue.elementRef
  else if name = "options" then some PropValue.optionsRef
  else if name = "index" then some (PropValue.natField st.index)
  else if name = "earlyReturn" then some (PropValue.boolField st.earlyReturn)
  else if methodNames.contains name then some (PropValue.method name)
  else none

/-- JavaScript truthiness of a property value: objects and functions are
truthy, a number is truthy unless zero, a boolean is its own truth. -/
def truthy : PropValue → Bool
  | PropValue.method _ => true
  | PropValue.elementRef => true
  | PropValue.optionsRef => true
  | PropValue.natField v => decide (v ≠ 0)
  | PropValue.boolField v => v

/-- Outcome of the string-dispatch surface for a given method-name string:
the Unkown-method throw, a method invocation, or the host TypeError raised
by calling apply on a value that is not a function. -/
inductive DispatchOutcome where
  | methodNotFound
  | invoked (m : String)
  | notAFunction
deriving DecidableEq

/-- Lines 645-649 of the source: if (!plugin[options]) throw, else
plugin[options].apply(...). -/
def stringDispatch (st : Transitionable) (name : String) : DispatchOutcome :=
  match pluginProp st name with
  | none => DispatchOutcome.methodNotFound
  | some v =>
    if truthy v then
      match v with
      | PropValue.method m => DispatchOutcome.invoked m
      | _ => DispatchOutcome.notAFunction
    else DispatchOutcome.methodNotFound

/-- The destroy method: every child gets display restored (shown); the
skip class is user-supplied and is not in the removed class list, so it
stays.  The removal of the stored instance is handled by the attach
wrapper below. -/
def destroyState (st : Transitionable) : Transitionable :=
  { st with slides := st.slides.map (fun s => { s with visible := true }) }

/-- The init method invoked again on an existing instance: index back to 0,
guard cleared, every child but the first hidden, the first child left as
it currently is. -/
def reinitSlides : List Slide → List Slide
  | [] => []
  | s :: rest => s :: rest.map (fun s2 => { s2 with visible := false })

/-- State transformation of a re-run of init. -/
def reinit (st : Transitionable) : Transitionable :=
  { st with index := 0, earlyReturn := false, slides := reinitSlides st.slides }

/-- Invocation of a prototype method through the dispatch surface with no
further arguments: next and prev navigate with every optional argument
defaulted (no effect argument, default selector, no beforeloop handler);
a bare _navigate normalizes its missing navigation argument to next; the
two class helpers are pure and leave the state alone. -/
def invokeNamed (st : Transitionable) (m : String) : Transitionable :=
  if m = "next" then (navigate st "next" none (fun _ => true) false).1
  else if m = "prev" then (navigate st "prev" none (fun _ => true) false).1
  else if m = "_navigate" then (navigate st "next" none (fun _ => true) false).1
  else if m = "destroy" then destroyState st
  else if m = "init" then reinit st
  else st

/-- The argument of one $(container).transitionable(...) call: nothing, an
options object, or a method-name string. -/
inductive PluginArg where
  | noArg
  | configArg (o : InputOptions)
  | methodArg (name : String)

/-- Outcome of the attach wrapper: the returned instance together with the
instance stored on the container afterwards, or one of the thrown
errors. -/
inductive FnResult where
  | returned (p : Transitionable) (stored : Option Transitionable)
  | methodNotFoundError (name : String)
  | notAFunctionError
  | configError (msg : String)
deriving DecidableEq

/-- Options carried by the call for the construction branch: an options
object is used as is; no argument, or a string argument, leaves every
defaulted field in place (jQuery extend copies no relevant key from a
string). -/
def argOptions : PluginArg → InputOptions
  | PluginArg.configArg o => o
  | _ => { loop := none, effect := none, direction := none }

/-- The plugin wrapper $.fn.transitionable (lines 641-656): when an
instance is already stored on the container, a string argument is
dispatched on it and anything else returns the stored instance untouched;
otherwise a new instance is constructed and stored. -/
def fnTransitionable (stored : Option Transitionable) (arg : PluginArg) (skips : List Bool) :
    FnResult :=
  match stored with
  | some plugin =>
    match arg with
    | PluginArg.methodArg name =>
      match stringDispatch plugin name with
      | DispatchOutcome.methodNotFound => FnResult.methodNotFoundError name
      | DispatchOutcome.notAFunction => FnResult.notAFunctionError
      | DispatchOutcome.invoked m =>
        let p2 := invokeNamed plugin m
        FnResult.returned p2 (if m = "destroy" then none else some p2)
    | _ => FnResult.returned plugin (some plugin)
  | none =>
    match Transitionable.new (argOptions arg) skips with
    | Except.error e => FnResult.configError e
    | Except.ok p => FnResult.returned p (some p)

/-! ## Basic lemmas about the list helpers -/

theorem length_setVisible (l : List Slide) (j : Nat) (b : Bool) :
    (setVisible l j b).length = l.length := by
  induction l generalizing j with
  | nil => rfl
  | cons s rest ih =>
    cases j with
    | zero => rfl
    | succ j => simpa [setVisible] using ih j

theorem slideSkip_setVisible (l : List Slide) (j : Nat) (b : Bool) (k : Nat) :
    slideSkip (setVisible l j b) k = slideSkip l k := by
  induction l generalizing j k with
  | nil => rfl
  | cons s rest ih =>
    cases j with
    | zero => cases k <;> rfl
    | succ j =>
      cases k with
      | zero => rfl
      | succ k => simpa [setVisible, slideSkip] using ih j k

theorem slideVisible_setVisible_ne (l : List Slide) (j : Nat) (b : Bool) (k : Nat)
    (h : k ≠ j) : slideVisible (setVisible l j b) k = slideVisible l k := by
  induction l generalizing j k with
  | nil => rfl
  | cons s rest ih =>
    cases j with
    | zero =>
      cases k with
      | zero => exact absurd rfl h
      | succ k => rfl
    | succ j =>
      cases k with
      | zero => rfl
      | succ k =>
        have : k ≠ j := fun hkj => h (by rw [hkj])
        simpa [setVisible, slideVisible] using ih j k this

theorem slideVisible_setVisible_self (l : List Slide) (j : Nat) (b : Bool)
    (h : j < l.length) : slideVisible (setVisible l j b) j = b := by
  induction l generalizing j with
  | nil => simp at h
  | cons s rest ih =>
    cases j with
    | zero => rfl
    | succ j =>
      have : j < rest.length := by simpa using h
      simpa [setVisible, slideVisible] using ih j this

theorem slideSkip_ge (l : List Slide) (j : Nat) (h : l.length ≤ j) :
    slideSkip l j = false := by
  have h2 : l[j]? = none := List.getElem?_eq_none h
  simp [slideSkip, h2]

theorem navCond_setVisible (l : List Slide) (j : Nat) (b : Bool) (sel : Nat → Bool) (k : Nat) :
    navCond (setVisible l j b) sel k = navCond l sel k := by
  simp [navCond, length_setVisible, slideSkip_setVisible]

/-! ## Specifications of the candidate searches -/

theorem findFirstAux_some (cond : Nat → Bool) :
    ∀ r s j, findFirstAux cond s r = some j →
      s ≤ j ∧ j < s + r ∧ cond j = true ∧ ∀ k, s ≤ k → k < j → cond k = false := by
  intro r
  induction r with
  | zero => intro s j h; simp [findFirstAux] at h
  | succ r ih =>
    intro s j h
    simp only [findFirstAux] at h
    split at h
    · rename_i hc
      cases h
      exact ⟨Nat.le_refl _, by omega, hc, fun k hk1 hk2 => by omega⟩
    · rename_i hc
      obtain ⟨h1, h2, h3, h4⟩ := ih (s + 1) j h
      refine ⟨by omega, by omega, h3, fun k hk1 hk2 => ?_⟩
      rcases Nat.eq_or_lt_of_le hk1 with hk | hk
      · simpa [← hk] using hc
      · exact h4 k hk hk2

theorem findFirstAux_none (cond : Nat → Bool) :
    ∀ r s, findFirstAux cond s r = none → ∀ k, s ≤ k → k < s + r → cond k = false := by
  intro r
  induction r with
  | zero => intro s _ k hk1 hk2; omega
  | succ r ih =>
    intro s h k hk1 hk2
    simp only [findFirstAux] at h
    split at h
    · cases h
    · rename_i hc
      rcases Nat.eq_or_lt_of_le hk1 with hk | hk
      · simpa [← hk] using hc
      · exact ih (s + 1) h k hk (by omega)

theorem findFirstFrom_some (cond : Nat → Bool) (n s j : Nat)
    (h : findFirstFrom cond n s = some j) :
    s ≤ j ∧ j < n ∧ cond j = true ∧ ∀ k, s ≤ k → k < j → cond k = false := by
  obtain ⟨h1, h2, h3, h4⟩ := findFirstAux_some cond (n - s) s j h
  exact ⟨h1, by omega, h3, h4⟩

theorem findFirstFrom_none (cond : Nat → Bool) (n s : Nat)
    (h : findFirstFrom cond n s = none) : ∀ k, s ≤ k → k < n → cond k = false := by
  intro k hk1 hk2
  exact findFirstAux_none cond (n - s) s h k hk1 (by omega)

theorem findFirstFrom_self (cond : Nat → Bool) (n s : Nat) (hc : cond s = true)
    (hs : s < n) : findFirstFrom cond n s = some s := by
  unfold findFirstFrom
  have hr : n - s = (n - s - 1) + 1 := by omega
  rw [hr]
  simp [findFirstAux, hc]

theorem findFirstFrom_stop (cond : Nat → Bool) (n s : Nat) (h : n ≤ s) :
    findFirstFrom cond n s = none := by
  unfold findFirstFrom
  have hr : n - s = 0 := by omega
  rw [hr]
  rfl

theorem findLastBelow_some (cond : Nat → Bool) :
    ∀ i j, findLastBelow cond i = some j →
      j < i ∧ cond j = true ∧ ∀ k, j < k → k < i → cond k = false := by
  intro i
  induction i with
  | zero => intro j h; simp [findLastBelow] at h
  | succ i ih =>
    intro j h
    simp only [findLastBelow] at h
    split at h
    · rename_i hc
      cases h
      exact ⟨by omega, hc, fun k hk1 hk2 => by omega⟩
    · rename_i hc
      obtain ⟨h1, h2, h3⟩ := ih j h
      refine ⟨by omega, h2, fun k hk1 hk2 => ?_⟩
      rcases Nat.lt_succ_iff_lt_or_eq.1 hk2 with hk | hk
      · exact h3 k hk1 hk
      · simpa [hk] using hc

theorem findLastBelow_none (cond : Nat → Bool) :
    ∀ i, findLastBelow cond i = none → ∀ k, k < i → cond k = false := by
  intro i
  induction i with
  | zero => intro _ k hk; omega
  | succ i ih =>
    intro h k hk
    simp only [findLastBelow] at h
    split at h
    · cases h
    · rename_i hc
      rcases Nat.lt_succ_iff_lt_or_eq.1 hk with hk2 | hk2
      · exact ih h k hk2
      · simpa [hk2] using hc

theorem findLastBelow_eval (cond : Nat → Bool) (i : Nat) (hc : cond i = true) :
    findLastBelow cond (i + 1) = some i := by
  simp [findLastBelow, hc]

/-! ## Facts about the computed target index -/

theorem navCond_eq_true (l : List Slide) (sel : Nat → Bool) (j : Nat)
    (h : navCond l sel j = true) :
    j < l.length ∧ sel j = true ∧ slideSkip l j = false := by
  simp only [navCond, Bool.and_eq_true, Bool.not_eq_true', decide_eq_true_eq] at h
  exact ⟨h.1.1, h.1.2, h.2⟩

theorem computeNewIndex_cond (st : Transitionable) (nav : String) (sel : Nat → Bool) (ni : Nat)
    (h : computeNewIndex st nav sel = some ni) : navCond st.slides sel ni = true := by
  simp only [computeNewIndex] at h
  split at h
  · revert h
    cases hf : findFirstFrom (navCond st.slides sel) st.slides.length (st.index + 1) with
    | some j =>
      intro h
      cases h
      exact (findFirstFrom_some _ _ _ _ hf).2.2.1
    | none =>
      intro h
      exact (findFirstFrom_some _ _ _ _ h).2.2.1
  · revert h
    cases hf : findLastBelow (navCond st.slides sel) st.index with
    | some j =>
      intro h
      cases h
      exact (findLastBelow_some _ _ _ hf).2.1
    | none =>
      intro h
      exact (findLastBelow_some _ _ _ h).2.1

theorem computeNewIndex_lt (st : Transitionable) (nav : String) (sel : Nat → Bool) (ni : Nat)
    (h : computeNewIndex st nav sel = some ni) : ni < st.slides.length :=
  (navCond_eq_true _ _ _ (computeNewIndex_cond st nav sel ni h)).1

/-! ## Case analysis of one _navigate call -/

theorem applyEffect_fst_index (st : Transitionable) (ni : Nat) (eff : Option String)
    (fired : Bool) : (applyEffect st ni eff fired).1.index = ni := by
  unfold applyEffect
  split <;> rfl

theorem applyEffect_fst_options (st : Transitionable) (ni : Nat) (eff : Option String)
    (fired : Bool) : (applyEffect st ni eff fired).1.options = st.options := by
  unfold applyEffect
  split <;> rfl

theorem applyEffect_fst_length (st : Transitionable) (ni : Nat) (eff : Option String)
    (fired : Bool) : (applyEffect st ni eff fired).1.slides.length = st.slides.length := by
  unfold applyEffect
  split <;> simp [length_setVisible]

theorem applyEffect_fst_skip (st : Transitionable) (ni : Nat) (eff : Option String)
    (fired : Bool) (k : Nat) :
    slideSkip (applyEffect st ni eff fired).1.slides k = slideSkip st.slides k := by
  unfold applyEffect
  split <;> simp [slideSkip_setVisible]

theorem navigate_spec (st : Transitionable) (nav : String) (eff : Option String)
    (sel : Nat → Bool) (canc : Bool) :
    (st.earlyReturn = true ∧
      navigate st nav eff sel canc = (st, { firedBeforeLoop := false, completed := false }))
    ∨ (st.earlyReturn = false ∧
      ((computeNewIndex st (resolveNavigation nav) sel = none ∧
        navigate st nav eff sel canc =
          ({ st with earlyReturn := false }, { firedBeforeLoop := false, completed := false }))
      ∨ (computeNewIndex st (resolveNavigation nav) sel = some st.index ∧
        navigate st nav eff sel canc =
          ({ st with earlyReturn := false }, { firedBeforeLoop := false, completed := false }))
      ∨ (∃ ni, computeNewIndex st (resolveNavigation nav) sel = some ni ∧ ni ≠ st.index ∧
          isLoopMove (resolveNavigation nav) st.index ni = true ∧
          (!st.options.loop || canc) = true ∧
          navigate st nav eff sel canc =
            ({ st with earlyReturn := false }, { firedBeforeLoop := true, completed := false }))
      ∨ (∃ ni, computeNewIndex st (resolveNavigation nav) sel = some ni ∧ ni ≠ st.index ∧
          (isLoopMove (resolveNavigation nav) st.index ni = true →
            (!st.options.loop || canc) = false) ∧
          navigate st nav eff sel canc =
            applyEffect st ni (resolveEffect st eff)
              (isLoopMove (resolveNavigation nav) st.index ni)))) := by
  by_cases hg : st.earlyReturn = true
  · exact Or.inl ⟨hg, by simp [navigate, hg]⟩
  · have hg2 : st.earlyReturn = false := by simpa using hg
    refine Or.inr ⟨hg2, ?_⟩
    cases hC : computeNewIndex st (resolveNavigation nav) sel with
    | none => exact Or.inl ⟨rfl, by simp [navigate, hg2, hC]⟩
    | some ni =>
      by_cases hni : ni = st.index
      · exact Or.inr (Or.inl ⟨by rw [hni], by simp [navigate, hg2, hC, hni]⟩)
      · by_cases hL : isLoopMove (resolveNavigation nav) st.index ni = true
        · by_cases hStop : (!st.options.loop || canc) = true
          · exact Or.inr (Or.inr (Or.inl
              ⟨ni, rfl, hni, hL, hStop, by simp [navigate, hg2, hC, hni, hL, hStop]⟩))
          · have hStop2 : (!st.options.loop || canc) = false := by simpa using hStop
            exact Or.inr (Or.inr (Or.inr
              ⟨ni, rfl, hni, fun _ => hStop2, by simp [navigate, hg2, hC, hni, hL, hStop2]⟩))
        · have hL2 : isLoopMove (resolveNavigation nav) st.index ni = false := by simpa using hL
          exact Or.inr (Or.inr (Or.inr
            ⟨ni, rfl, hni, fun h => absurd h hL, by simp [navigate, hg2, hC, hni, hL2]⟩))


theorem isLoopMove_next (i ni : Nat) : isLoopMove "next" i ni = decide (ni < i) := by
  simp [isLoopMove]

theorem isLoopMove_prev (i ni : Nat) : isLoopMove "prev" i ni = decide (i < ni) := by
  simp [isLoopMove]

theorem resolveNavigation_next : resolveNavigation "next" = "next" := by decide

theorem resolveNavigation_prev : resolveNavigation "prev" = "prev" := by decide

theorem resolveEffect_none (st : Transitionable) :
    resolveEffect st none = st.options.effect := by
  simp [resolveEffect]

theorem applyEffect_sync (st : Transitionable) (ni : Nat) (fired : Bool) :
    applyEffect st ni none fired =
      ({ st with
          index := ni
          earlyReturn := false
          slides := setVisible (setVisible st.slides ni true) st.index false
          pending := none },
       { firedBeforeLoop := fired, completed := true }) := by
  simp [applyEffect]

theorem applyEffect_async (st : Transitionable) (ni : Nat) (eff : Option String) (fired : Bool)
    (h : eff = some "fade" ∨ eff = some "slide") :
    applyEffect st ni eff fired =
      ({ st with
          index := ni
          earlyReturn := true
          slides := setVisible st.slides ni true
          pending := some st.index },
       { firedBeforeLoop := fired, completed := false }) := by
  rcases h with h | h <;> simp [applyEffect, h]

theorem navigate_transitioning (st : Transitionable) (nav : String) (eff : Option String)
    (sel : Nat → Bool) (canc : Bool) (h : st.earlyReturn = true) :
    navigate st nav eff sel canc = (st, { firedBeforeLoop := false, completed := false }) := by
  simp [navigate, h]

theorem navigate_no_candidate (st : Transitionable) (nav : String) (eff : Option String)
    (sel : Nat → Bool) (canc : Bool) (hER : st.earlyReturn = false)
    (hC : computeNewIndex st (resolveNavigation nav) sel = none) :
    navigate st nav eff sel canc =
      ({ st with earlyReturn := false }, { firedBeforeLoop := false, completed := false }) := by
  simp [navigate, hER, hC]

theorem navigate_same_index (st : Transitionable) (nav : String) (eff : Option String)
    (sel : Nat → Bool) (canc : Bool) (hER : st.earlyReturn = false)
    (hC : computeNewIndex st (resolveNavigation nav) sel = some st.index) :
    navigate st nav eff sel canc =
      ({ st with earlyReturn := false }, { firedBeforeLoop := false, completed := false }) := by
  simp [navigate, hER, hC]

theorem navigate_loop_stopped (st : Transitionable) (nav : String) (eff : Option String)
    (sel : Nat → Bool) (canc : Bool) (ni : Nat) (hER : st.earlyReturn = false)
    (hC : computeNewIndex st (resolveNavigation nav) sel = some ni) (hni : ni ≠ st.index)
    (hL : isLoopMove (resolveNavigation nav) st.index ni = true)
    (hStop : (!st.options.loop || canc) = true) :
    navigate st nav eff sel canc =
      ({ st with earlyReturn := false }, { firedBeforeLoop := true, completed := false }) := by
  simp [navigate, hER, hC, hni, hL, hStop]

theorem navigate_accept (st : Transitionable) (nav : String) (eff : Option String)
    (sel : Nat → Bool) (canc : Bool) (ni : Nat) (hER : st.earlyReturn = false)
    (hC : computeNewIndex st (resolveNavigation nav) sel = some ni) (hni : ni ≠ st.index)
    (hL : isLoopMove (resolveNavigation nav) st.index ni = true →
      (!st.options.loop || canc) = false) :
    navigate st nav eff sel canc =
      applyEffect st ni (resolveEffect st eff)
        (isLoopMove (resolveNavigation nav) st.index ni) := by
  by_cases hLM : isLoopMove (resolveNavigation nav) st.index ni = true
  · simp [navigate, hER, hC, hni, hLM, hL hLM]
  · have hLM2 : isLoopMove (resolveNavigation nav) st.index ni = false := by simpa using hLM
    simp [navigate, hER, hC, hni, hLM2]

/-! ## The candidate computation when nothing is filtered -/

theorem navCond_all (st : Transitionable)
    (hskip : ∀ j, j < st.slides.length → slideSkip st.slides j = false) :
    navCond st.slides (fun _ => true) = fun j => decide (j < st.slides.length) := by
  funext j
  by_cases hj : j < st.slides.length
  · simp [navCond, hj, hskip j hj]
  · simp [navCond, hj, slideSkip_ge st.slides j (by omega)]

theorem computeNewIndex_next_all (st : Transitionable)
    (hskip : ∀ j, j < st.slides.length → slideSkip st.slides j = false)
    (hn : 1 ≤ st.slides.length) :
    computeNewIndex st "next" (fun _ => true) =
      some (if st.index + 1 < st.slides.length then st.index + 1 else 0) := by
  have hc := navCond_all st hskip
  by_cases h1 : st.index + 1 < st.slides.length
  · rw [if_pos h1]
    simp only [computeNewIndex, hc]
    rw [if_pos trivial, findFirstFrom_self _ _ _ (decide_eq_true h1) h1]
  · rw [if_neg h1]
    simp only [computeNewIndex, hc]
    rw [if_pos trivial, findFirstFrom_stop _ _ _ (by omega),
      findFirstFrom_self _ _ _ (decide_eq_true (by omega : 0 < st.slides.length)) (by omega)]

theorem computeNewIndex_prev_all (st : Transitionable)
    (hskip : ∀ j, j < st.slides.length → slideSkip st.slides j = false)
    (hn : 1 ≤ st.slides.length) (hidx : st.index < st.slides.length) :
    computeNewIndex st "prev" (fun _ => true) =
      some (if st.index = 0 then st.slides.length - 1 else st.index - 1) := by
  have hc := navCond_all st hskip
  cases hi : st.index with
  | zero =>
    simp only [computeNewIndex, hc]
    rw [if_neg (by decide : ¬("prev" = "next")), hi]
    rw [show findLastBelow (fun j => decide (j < st.slides.length)) 0 = none from rfl]
    obtain ⟨m, hm⟩ : ∃ m, st.slides.length = m + 1 := ⟨st.slides.length - 1, by omega⟩
    rw [hm, findLastBelow_eval _ _ (decide_eq_true (by omega))]
    simp
  | succ k =>
    simp only [computeNewIndex, hc]
    rw [if_neg (by decide : ¬("prev" = "next")), hi,
      findLastBelow_eval _ _ (decide_eq_true (by omega : k < st.slides.length))]
    simp

/-! ## One unfiltered, effect-less navigation step -/

theorem navigate_plain_next (st : Transitionable)
    (hER : st.earlyReturn = false) (hloop : st.options.loop = true)
    (heff : st.options.effect = none)
    (hskip : ∀ j, j < st.slides.length → slideSkip st.slides j = false)
    (hidx : st.index < st.slides.length) :
    (navigate st "next" none (fun _ => true) false).1.index =
      (if st.index + 1 < st.slides.length then st.index + 1 else 0)
    ∧ (navigate st "next" none (fun _ => true) false).1.earlyReturn = false
    ∧ (navigate st "next" none (fun _ => true) false).1.options = st.options
    ∧ (navigate st "next" none (fun _ => true) false).1.slides.length = st.slides.length
    ∧ ∀ j, j < st.slides.length →
        slideSkip (navigate st "next" none (fun _ => true) false).1.slides j = false := by
  have hn : 1 ≤ st.slides.length := by omega
  have hC0 := computeNewIndex_next_all st hskip hn
  by_cases h1 : st.index + 1 < st.slides.length
  · have hC : computeNewIndex st (resolveNavigation "next") (fun _ => true) =
        some (st.index + 1) := by
      rw [resolveNavigation_next, hC0, if_pos h1]
    have hni : st.index + 1 ≠ st.index := by omega
    have hLM : isLoopMove (resolveNavigation "next") st.index (st.index + 1) = false := by
      rw [resolveNavigation_next, isLoopMove_next]
      simp
    have hacc := navigate_accept st "next" none (fun _ => true) false (st.index + 1) hER hC hni
      (fun h => by rw [hLM] at h; cases h)
    rw [hacc, resolveEffect_none, heff, applyEffect_sync]
    refine ⟨?_, rfl, rfl, by simp [length_setVisible], fun j hj => ?_⟩
    · show st.index + 1 = if st.index + 1 < st.slides.length then st.index + 1 else 0
      rw [if_pos h1]
    · simp [slideSkip_setVisible, hskip j hj]
  · by_cases hz : st.index = 0
    · have hC : computeNewIndex st (resolveNavigation "next") (fun _ => true) =
          some st.index := by
        rw [resolveNavigation_next, hC0, if_neg h1, hz]
      rw [navigate_same_index st "next" none (fun _ => true) false hER hC]
      refine ⟨?_, rfl, rfl, rfl, fun j hj => hskip j hj⟩
      show st.index = if st.index + 1 < st.slides.length then st.index + 1 else 0
      rw [if_neg h1, hz]
    · have hC : computeNewIndex st (resolveNavigation "next") (fun _ => true) = some 0 := by
        rw [resolveNavigation_next, hC0, if_neg h1]
      have hni : 0 ≠ st.index := fun h => hz h.symm
      have hacc := navigate_accept st "next" none (fun _ => true) false 0 hER hC hni
        (fun _ => by rw [hloop]; rfl)
      rw [hacc, resolveEffect_none, heff, applyEffect_sync]
      refine ⟨?_, rfl, rfl, by simp [length_setVisible], fun j hj => ?_⟩
      · show (0 : Nat) = if st.index + 1 < st.slides.length then st.index + 1 else 0
        rw [if_neg h1]
      · simp [slideSkip_setVisible, hskip j hj]

theorem navigate_plain_prev (st : Transitionable)
    (hER : st.earlyReturn = false) (hloop : st.options.loop = true)
    (heff : st.options.effect = none)
    (hskip : ∀ j, j < st.slides.length → slideSkip st.slides j = false)
    (hidx : st.index < st.slides.length) :
    (navigate st "prev" none (fun _ => true) false).1.index =
      (if st.index = 0 then st.slides.length - 1 else st.index - 1) := by
  have hn : 1 ≤ st.slides.length := by omega
  have hC0 := computeNewIndex_prev_all st hskip hn hidx
  by_cases hz : st.index = 0
  · by_cases h2 : st.slides.length = 1
    · have hC : computeNewIndex st (resolveNavigation "prev") (fun _ => true) =
          some st.index := by
        rw [resolveNavigation_prev, hC0, if_pos hz, h2, hz]
      rw [navigate_same_index st "prev" none (fun _ => true) false hER hC]
      show st.index = if st.index = 0 then st.slides.length - 1 else st.index - 1
      rw [if_pos hz, hz, h2]
    · have hC : computeNewIndex st (resolveNavigation "prev") (fun _ => true) =
          some (st.slides.length - 1) := by
        rw [resolveNavigation_prev, hC0, if_pos hz]
      have hni : st.slides.length - 1 ≠ st.index := by omega
      have hacc := navigate_accept st "prev" none (fun _ => true) false
        (st.slides.length - 1) hER hC hni (fun _ => by rw [hloop]; rfl)
      rw [hacc, resolveEffect_none, heff, applyEffect_sync]
      show st.slides.length - 1 = if st.index = 0 then st.slides.length - 1 else st.index - 1
      rw [if_pos hz]
  · have hC : computeNewIndex st (resolveNavigation "prev") (fun _ => true) =
        some (st.index - 1) := by
      rw [resolveNavigation_prev, hC0, if_neg hz]
    have hni : st.index - 1 ≠ st.index := by omega
    have hLM : isLoopMove (resolveNavigation "prev") st.index (st.index - 1) = false := by
      rw [resolveNavigation_prev, isLoopMove_prev]
      simp
    have hacc := navigate_accept st "prev" none (fun _ => true) false (st.index - 1) hER hC hni
      (fun h => by rw [hLM] at h; cases h)
    rw [hacc, resolveEffect_none, heff, applyEffect_sync]
    show st.index - 1 = if st.index = 0 then st.slides.length - 1 else st.index - 1
    rw [if_neg hz]

/-- Claim C1: for every navigator in the Idle state with loop enabled, no
selector filtering and no skip-marked slides, calling next with no effect
and then prev with no effect returns currentIndex to the value it had
before the two calls, for every number of slides n ≥ 1 and every starting
index. -/
theorem claim_C1_next_prev_roundtrip (st : Transitionable)
    (hER : st.earlyReturn = false) (hloop : st.options.loop = true)
    (heff : st.options.effect = none)
    (hskip : ∀ j, j < st.slides.length → slideSkip st.slides j = false)
    (hidx : st.index < st.slides.length) :
    ((Transitionable.prev ((Transitionable.next st none (fun _ => true) false).1)
        none (fun _ => true) false).1).index = st.index := by
  have hn : 1 ≤ st.slides.length := by omega
  show ((navigate ((navigate st "next" none (fun _ => true) false).1)
      "prev" none (fun _ => true) false).1).index = st.index
  obtain ⟨hi1, he1, ho1, hl1, hs1⟩ := navigate_plain_next st hER hloop heff hskip hidx
  have hloop1 : (navigate st "next" none (fun _ => true) false).1.options.loop = true := by
    rw [ho1]; exact hloop
  have heff1 : (navigate st "next" none (fun _ => true) false).1.options.effect = none := by
    rw [ho1]; exact heff
  have hskip1 : ∀ j, j < (navigate st "next" none (fun _ => true) false).1.slides.length →
      slideSkip (navigate st "next" none (fun _ => true) false).1.slides j = false := by
    intro j hj
    rw [hl1] at hj
    exact hs1 j hj
  have hidx1 : (navigate st "next" none (fun _ => true) false).1.index <
      (navigate st "next" none (fun _ => true) false).1.slides.length := by
    rw [hl1, hi1]
    split <;> omega
  have hi2 := navigate_plain_prev _ he1 hloop1 heff1 hskip1 hidx1
  rw [hi2, hi1, hl1]
  by_cases h1 : st.index + 1 < st.slides.length
  · rw [if_pos h1, if_neg (by omega : ¬(st.index + 1 = 0))]
    omega
  · rw [if_neg h1, if_pos rfl]
    omega

/-- Concrete run of claim C1 on three slides starting at index 1. -/
theorem claim_C1_witness :
    ((Transitionable.prev ((Transitionable.next
        { initState defaults [false, false, false] with index := 1 } none (fun _ => true) false).1)
        none (fun _ => true) false).1).index =
      ({ initState defaults [false, false, false] with index := 1 } : Transitionable).index :=
  claim_C1_next_prev_roundtrip _ (by decide) (by decide) (by decide) (by decide) (by decide)

/-- Claim C4: while the navigator is Transitioning (a prior accepted
navigation whose completion has not yet fired), every next or prev call is
rejected: the whole state is returned untouched (nothing is queued), no
beforeloop event fires and no callback runs. -/
theorem claim_C4_transitioning_rejected (st : Transitionable) (navigation : String)
    (eff : Option String) (sel : Nat → Bool) (canc : Bool)
    (h : st.earlyReturn = true) :
    navigate st navigation eff sel canc =
      (st, { firedBeforeLoop := false, completed := false }) :=
  navigate_transitioning st navigation eff sel canc h

/-- Concrete run of claim C4: a call during a running fade changes nothing. -/
theorem claim_C4_witness :
    navigate { initState defaults [false, false] with earlyReturn := true, pending := some 0, index := 1 }
        "next" none (fun _ => true) false =
      ({ initState defaults [false, false] with earlyReturn := true, pending := some 0, index := 1 },
       { firedBeforeLoop := false, completed := false }) :=
  claim_C4_transitioning_rejected _ "next" none (fun _ => true) false (by decide)

/-- Claim C3: from Idle, when the computed move is a wrap-around and either
looping is disabled or the beforeloop notification is canceled, the call
is a silent no-op: index, slides and pending are unchanged, the guard ends
cleared, no callback runs (the beforeloop event itself does fire). -/
theorem claim_C3_canceled_loop_noop (st : Transitionable) (navigation : String)
    (eff : Option String) (sel : Nat → Bool) (canc : Bool) (ni : Nat)
    (hER : st.earlyReturn = false)
    (hStop : st.options.loop = false ∨ canc = true)
    (hC : computeNewIndex st (resolveNavigation navigation) sel = some ni)
    (hni : ni ≠ st.index)
    (hL : isLoopMove (resolveNavigation navigation) st.index ni = true) :
    (navigate st navigation eff sel canc).1.index = st.index
    ∧ (navigate st navigation eff sel canc).1.slides = st.slides
    ∧ (navigate st navigation eff sel canc).1.earlyReturn = false
    ∧ (navigate st navigation eff sel canc).1.pending = st.pending
    ∧ (navigate st navigation eff sel canc).2.completed = false
    ∧ (navigate st navigation eff sel canc).2.firedBeforeLoop = true := by
  have hStop2 : (!st.options.loop || canc) = true := by
    rcases hStop with h | h <;> simp [h]
  rw [navigate_loop_stopped st navigation eff sel canc ni hER hC hni hL hStop2]
  exact ⟨rfl, rfl, rfl, rfl, rfl, rfl⟩

/-- Concrete run of claim C3: loop disabled, next at the last of two
slides. -/
theorem claim_C3_witness :
    (navigate { initState { defaults with loop := false } [false, false] with index := 1 }
        "next" none (fun _ => true) false).1.index =
      ({ initState { defaults with loop := false } [false, false] with index := 1 } :
        Transitionable).index :=
  (claim_C3_canceled_loop_noop _ "next" none (fun _ => true) false 0 (by decide)
    (Or.inl (by decide)) (by decide) (by decide) (by decide)).1

/-- Claim C10: starting from Idle, every synchronously-returning path of a
navigation leaves the guard cleared: a rejected call (no candidate, target
equal to the current index, or loop disabled or canceled - exactly the
calls that leave the index unchanged) ends with earlyReturn false, and so
does an accepted navigation whose resolved effect is null. -/
theorem claim_C10_no_stuck_guard (st : Transitionable) (navigation : String)
    (eff : Option String) (sel : Nat → Bool) (canc : Bool)
    (hER : st.earlyReturn = false) :
    ((navigate st navigation eff sel canc).1.index = st.index →
      (navigate st navigation eff sel canc).1.earlyReturn = false)
    ∧ (resolveEffect st eff = none →
      (navigate st navigation eff sel canc).1.earlyReturn = false) := by
  rcases navigate_spec st navigation eff sel canc with ⟨hg, _⟩ | ⟨_, hcase⟩
  · rw [hER] at hg
    cases hg
  · rcases hcase with ⟨_, heq⟩ | ⟨_, heq⟩ | ⟨ni, _, _, _, _, heq⟩ | ⟨ni, _, hni, _, heq⟩
    · rw [heq]
      exact ⟨fun _ => rfl, fun _ => rfl⟩
    · rw [heq]
      exact ⟨fun _ => rfl, fun _ => rfl⟩
    · rw [heq]
      exact ⟨fun _ => rfl, fun _ => rfl⟩
    · rw [heq]
      constructor
      · intro hidx
        rw [applyEffect_fst_index] at hidx
        exact absurd hidx hni
      · intro hre
        rw [hre, applyEffect_sync]
    
/-- Concrete run of claim C10: a rejected next on a single slide leaves
the guard cleared. -/
theorem claim_C10_witness :
    ((navigate (initState defaults [false]) "next" none (fun _ => true) false).1.index =
        (initState defaults [false]).index →
      (navigate (initState defaults [false]) "next" none (fun _ => true) false).1.earlyReturn =
        false)
    ∧ (resolveEffect (initState defaults [false]) none = none →
      (navigate (initState defaults [false]) "next" none (fun _ => true) false).1.earlyReturn =
        false) :=
  claim_C10_no_stuck_guard (initState defaults [false]) "next" none (fun _ => true) false
    (by decide)

/-- Counterexample to claim C7 as stated: the string element names no
method of the navigator, yet dispatching it on a fresh instance does not
throw the Unkown-method error - the lookup finds the truthy element field,
so apply is called on a non-function and a TypeError results instead. -/
theorem claim_C7_counterexample :
    methodNames.contains "element" = false ∧
    stringDispatch (initState defaults [false, false]) "element" ≠
      DispatchOutcome.methodNotFound := by decide

/-- Claim C7 (amended): a string that names neither a prototype method nor
one of the instance fields element, options, index, earlyReturn throws the
Unkown-method error; field names with truthy values (element and options
always, index when nonzero, earlyReturn when true) instead fail as
non-function invocations, while the falsy field values (index zero,
earlyReturn false) also throw the Unkown-method error. -/
theorem claim_C7_unknown_method_throws (st : Transitionable) (name : String) :
    (methodNames.contains name = false →
      name ≠ "element" → name ≠ "options" → name ≠ "index" → name ≠ "earlyReturn" →
      stringDispatch st name = DispatchOutcome.methodNotFound)
    ∧ stringDispatch st "element" = DispatchOutcome.notAFunction
    ∧ stringDispatch st "options" = DispatchOutcome.notAFunction
    ∧ (st.index = 0 → stringDispatch st "index" = DispatchOutcome.methodNotFound)
    ∧ (st.index ≠ 0 → stringDispatch st "index" = DispatchOutcome.notAFunction)
    ∧ (st.earlyReturn = false →
        stringDispatch st "earlyReturn" = DispatchOutcome.methodNotFound)
    ∧ (st.earlyReturn = true →
        stringDispatch st "earlyReturn" = DispatchOutcome.notAFunction) := by
  refine ⟨?_, rfl, rfl, ?_, ?_, ?_, ?_⟩
  · intro hm h1 h2 h3 h4
    have hm2 : ¬(name ∈ methodNames) := by simpa using hm
    simp [stringDispatch, pluginProp, h1, h2, h3, h4, hm2]
  · intro h
    simp [stringDispatch, pluginProp, truthy, h]
  · intro h
    simp [stringDispatch, pluginProp, truthy, h]
  · intro h
    simp [stringDispatch, pluginProp, truthy, h]
  · intro h
    simp [stringDispatch, pluginProp, truthy, h]

/-- Concrete run of claim C7 (amended): an arbitrary unknown name throws
the Unkown-method error on a fresh instance. -/
theorem claim_C7_witness :
    stringDispatch (initState defaults [false, false]) "foobar" =
      DispatchOutcome.methodNotFound :=
  (claim_C7_unknown_method_throws (initState defaults [false, false]) "foobar").1
    (by decide) (by decide) (by decide) (by decide) (by decide)

/-- Claim C6: construction fails if and only if the merged direction is
neither horizontal nor vertical or the merged effect is neither slide nor
fade nor null; with valid values it returns the initialized instance:
index 0, guard cleared, produced by init. -/
theorem claim_C6_config_validation (o : InputOptions) (skips : List Bool) :
    ((∃ msg, Transitionable.new o skips = Except.error msg) ↔
      (¬((mergeDefaults o).direction = "horizontal" ∨ (mergeDefaults o).direction = "vertical")
        ∨ ¬((mergeDefaults o).effect = some "slide" ∨ (mergeDefaults o).effect = some "fade"
            ∨ (mergeDefaults o).effect = none)))
    ∧ (((mergeDefaults o).direction = "horizontal" ∨ (mergeDefaults o).direction = "vertical") →
        ((mergeDefaults o).effect = some "slide" ∨ (mergeDefaults o).effect = some "fade"
          ∨ (mergeDefaults o).effect = none) →
        Transitionable.new o skips = Except.ok (initState (mergeDefaults o) skips)
        ∧ (initState (mergeDefaults o) skips).index = 0
        ∧ (initState (mergeDefaults o) skips).earlyReturn = false) := by
  by_cases hd : (mergeDefaults o).direction = "horizontal" ∨ (mergeDefaults o).direction = "vertical"
  · by_cases he : (mergeDefaults o).effect = some "slide" ∨ (mergeDefaults o).effect = some "fade"
        ∨ (mergeDefaults o).effect = none
    · have hok : Transitionable.new o skips = Except.ok (initState (mergeDefaults o) skips) := by
        simp only [Transitionable.new]
        rw [if_pos hd, if_pos he]
      refine ⟨⟨?_, ?_⟩, fun _ _ => ⟨hok, rfl, rfl⟩⟩
      · rintro ⟨msg, hmsg⟩
        rw [hok] at hmsg
        cases hmsg
      · rintro (h | h)
        · exact absurd hd h
        · exact absurd he h
    · have herr : Transitionable.new o skips =
          Except.error "Invalid option effect. Must be slide or fade or null." := by
        simp only [Transitionable.new]
        rw [if_pos hd, if_neg he]
      exact ⟨⟨fun _ => Or.inr he, fun _ => ⟨_, herr⟩⟩, fun _ he2 => absurd he2 he⟩
  · have herr : Transitionable.new o skips =
        Except.error "Invalid option direction. Must be horizontal or vertical." := by
      simp only [Transitionable.new]
      rw [if_neg hd]
    exact ⟨⟨fun _ => Or.inl hd, fun _ => ⟨_, herr⟩⟩, fun hd2 _ => absurd hd2 hd⟩

/-- Concrete run of claim C6: valid options construct the initialized
instance. -/
theorem claim_C6_witness :
    Transitionable.new { loop := none, effect := some (some "fade"), direction := some "vertical" }
        [false, true] =
      Except.ok (initState
        (mergeDefaults { loop := none, effect := some (some "fade"), direction := some "vertical" })
        [false, true]) :=
  ((claim_C6_config_validation _ [false, true]).2 (by decide) (by decide)).1

/-- Claim C8: attaching the plugin to an already-managed container with no
argument or an options object returns the stored instance itself, stores
no new instance, and leaves the stored state untouched. -/
theorem claim_C8_reattach_idempotent (p : Transitionable) (arg : PluginArg)
    (skips : List Bool)
    (h : arg = PluginArg.noArg ∨ ∃ io, arg = PluginArg.configArg io) :
    fnTransitionable (some p) arg skips = FnResult.returned p (some p) := by
  rcases h with h | ⟨io, h⟩ <;> rw [h] <;> rfl

/-- Concrete run of claim C8: re-attachment with fresh options returns the
existing instance unchanged. -/
theorem claim_C8_witness :
    fnTransitionable (some { initState defaults [false, false] with index := 1 })
        (PluginArg.configArg { loop := some false, effect := none, direction := none }) [false] =
      FnResult.returned { initState defaults [false, false] with index := 1 }
        (some { initState defaults [false, false] with index := 1 }) :=
  claim_C8_reattach_idempotent _ _ [false]
    (Or.inr ⟨{ loop := some false, effect := none, direction := none }, rfl⟩)

/-! ## Which child an accepted navigation selects -/

theorem navigate_changed_target (st : Transitionable) (navigation : String)
    (eff : Option String) (sel : Nat → Bool) (canc : Bool) (ni : Nat)
    (hEq : (navigate st navigation eff sel canc).1.index = ni) (hne : ni ≠ st.index) :
    computeNewIndex st (resolveNavigation navigation) sel = some ni := by
  rcases navigate_spec st navigation eff sel canc with ⟨_, heq⟩ | ⟨_, hcase⟩
  · rw [heq] at hEq
    exact absurd hEq.symm hne
  · rcases hcase with ⟨_, heq⟩ | ⟨_, heq⟩ | ⟨ni', _, _, _, _, heq⟩ | ⟨ni', hC, hni', _, heq⟩
    · rw [heq] at hEq
      simp at hEq
      exact absurd hEq.symm hne
    · rw [heq] at hEq
      simp at hEq
      exact absurd hEq.symm hne
    · rw [heq] at hEq
      simp at hEq
      exact absurd hEq.symm hne
    · rw [heq, applyEffect_fst_index] at hEq
      rw [hEq] at hC
      exact hC

/-- Claim C2: an accepted next selects the first child after currentIndex
in document order that matches the selector and is not skip-marked, and
when no such following child exists it wraps to the first matching
non-skip child; prev is the mirror image.  With 3 slides at index 0 and
loop enabled, three successive next calls yield indices 1, 2, then 0, the
last one firing the cancelable beforeloop notification. -/
theorem claim_C2_target_selection :
    (∀ (st : Transitionable) (eff : Option String) (sel : Nat → Bool) (canc : Bool) (ni : Nat),
      (navigate st "next" eff sel canc).1.index = ni → ni ≠ st.index →
      navCond st.slides sel ni = true ∧
      ((st.index < ni ∧ ∀ k, st.index < k → k < ni → navCond st.slides sel k = false)
        ∨ ((∀ k, st.index < k → k < st.slides.length → navCond st.slides sel k = false)
           ∧ ∀ k, k < ni → navCond st.slides sel k = false)))
    ∧ (∀ (st : Transitionable) (eff : Option String) (sel : Nat → Bool) (canc : Bool) (ni : Nat),
      (navigate st "prev" eff sel canc).1.index = ni → ni ≠ st.index →
      navCond st.slides sel ni = true ∧
      ((ni < st.index ∧ ∀ k, ni < k → k < st.index → navCond st.slides sel k = false)
        ∨ ((∀ k, k < st.index → navCond st.slides sel k = false)
           ∧ ∀ k, ni < k → k < st.slides.length → navCond st.slides sel k = false)))
    ∧ ((navigate (initState defaults [false, false, false])
          "next" none (fun _ => true) false).1.index = 1
      ∧ (navigate (initState defaults [false, false, false])
          "next" none (fun _ => true) false).2.firedBeforeLoop = false
      ∧ (navigate (navigate (initState defaults [false, false, false])
          "next" none (fun _ => true) false).1 "next" none (fun _ => true) false).1.index = 2
      ∧ (navigate (navigate (initState defaults [false, false, false])
          "next" none (fun _ => true) false).1 "next" none (fun _ => true) false).2.firedBeforeLoop
            = false
      ∧ (navigate (navigate (navigate (initState defaults [false, false, false])
          "next" none (fun _ => true) false).1 "next" none (fun _ => true) false).1
          "next" none (fun _ => true) false).1.index = 0
      ∧ (navigate (navigate (navigate (initState defaults [false, false, false])
          "next" none (fun _ => true) false).1 "next" none (fun _ => true) false).1
          "next" none (fun _ => true) false).2.firedBeforeLoop = true) := by
  refine ⟨?_, ?_, by decide⟩
  · intro st eff sel canc ni hEq hne
    have hC := navigate_changed_target st "next" eff sel canc ni hEq hne
    rw [resolveNavigation_next] at hC
    refine ⟨computeNewIndex_cond st "next" sel ni hC, ?_⟩
    simp only [computeNewIndex] at hC
    rw [if_pos trivial] at hC
    revert hC
    cases hf : findFirstFrom (navCond st.slides sel) st.slides.length (st.index + 1) with
    | some j =>
      intro hC
      have hj : j = ni := Option.some.inj hC
      subst hj
      obtain ⟨hle, hlt, _, hmin⟩ := findFirstFrom_some _ _ _ _ hf
      exact Or.inl ⟨by omega, fun k hk1 hk2 => hmin k (by omega) hk2⟩
    | none =>
      intro hC
      obtain ⟨_, _, _, hmin⟩ := findFirstFrom_some _ _ _ _ hC
      have hnone := findFirstFrom_none _ _ _ hf
      exact Or.inr ⟨fun k hk1 hk2 => hnone k (by omega) hk2, fun k hk => hmin k (by omega) hk⟩
  · intro st eff sel canc ni hEq hne
    have hC := navigate_changed_target st "prev" eff sel canc ni hEq hne
    rw [resolveNavigation_prev] at hC
    refine ⟨computeNewIndex_cond st "prev" sel ni hC, ?_⟩
    simp only [computeNewIndex] at hC
    rw [if_neg (by decide : ¬("prev" = "next"))] at hC
    revert hC
    cases hf : findLastBelow (navCond st.slides sel) st.index with
    | some j =>
      intro hC
      have hj : j = ni := Option.some.inj hC
      subst hj
      obtain ⟨hlt, _, hmin⟩ := findLastBelow_some _ _ _ hf
      exact Or.inl ⟨hlt, hmin⟩
    | none =>
      intro hC
      obtain ⟨hltn, _, hminN⟩ := findLastBelow_some _ _ _ hC
      have hnone := findLastBelow_none _ _ hf
      exact Or.inr ⟨fun k hk => hnone k hk, fun k hk1 hk2 => hminN k hk1 hk2⟩

/-- Concrete run of claim C2: on slides with the middle one skip-marked,
an accepted next from index 0 lands on a matching non-skip child. -/
theorem claim_C2_witness :
    navCond (initState defaults [false, true, false]).slides (fun _ => true)
      ((navigate (initState defaults [false, true, false])
        "next" none (fun _ => true) false).1.index) = true :=
  ((claim_C2_target_selection).1 (initState defaults [false, true, false]) none (fun _ => true)
    false 2 (by decide) (by decide)).1

/-! ## Skip-marked children and navigation -/

theorem applyEffect_visible_other (st : Transitionable) (ni : Nat) (eff : Option String)
    (fired : Bool) (j : Nat) (h1 : j ≠ ni) (h2 : j ≠ st.index) :
    slideVisible (applyEffect st ni eff fired).1.slides j = slideVisible st.slides j := by
  unfold applyEffect
  split
  · show slideVisible (setVisible st.slides ni true) j = slideVisible st.slides j
    exact slideVisible_setVisible_ne _ _ _ _ h1
  · show slideVisible (setVisible (setVisible st.slides ni true) st.index false) j =
      slideVisible st.slides j
    rw [slideVisible_setVisible_ne _ _ _ _ h2, slideVisible_setVisible_ne _ _ _ _ h1]

theorem applyEffect_transitionEnd_visible_other (st : Transitionable) (ni : Nat)
    (eff : Option String) (fired : Bool) (j : Nat) (h1 : j ≠ ni) (h2 : j ≠ st.index) :
    slideVisible (transitionEnd (applyEffect st ni eff fired).1).slides j =
      slideVisible st.slides j := by
  unfold applyEffect
  split
  · show slideVisible (setVisible (setVisible st.slides ni true) st.index false) j =
      slideVisible st.slides j
    rw [slideVisible_setVisible_ne _ _ _ _ h2, slideVisible_setVisible_ne _ _ _ _ h1]
  · show slideVisible (setVisible (setVisible st.slides ni true) st.index false) j =
      slideVisible st.slides j
    rw [slideVisible_setVisible_ne _ _ _ _ h2, slideVisible_setVisible_ne _ _ _ _ h1]

theorem transitionEnd_pending_none (st : Transitionable) (h : st.pending = none) :
    transitionEnd st = st := by
  unfold transitionEnd
  rw [h]

/-- Claim C5: a skip-marked child is never selected as the navigation
target - the index can only equal its position when it already did before
the call - and a navigation across it, together with the completion of
that navigation, leaves its visibility untouched. -/
theorem claim_C5_skip_excluded (st : Transitionable) (navigation : String) (eff : Option String)
    (sel : Nat → Bool) (canc : Bool) (j : Nat)
    (hskip : slideSkip st.slides j = true) :
    ((navigate st navigation eff sel canc).1.index = j → st.index = j)
    ∧ (j ≠ st.index →
        slideVisible (navigate st navigation eff sel canc).1.slides j = slideVisible st.slides j)
    ∧ (st.earlyReturn = false → st.pending = none → j ≠ st.index →
        slideVisible (transitionEnd (navigate st navigation eff sel canc).1).slides j =
          slideVisible st.slides j) := by
  rcases navigate_spec st navigation eff sel canc with ⟨hg, heq⟩ | ⟨hER, hcase⟩
  · rw [heq]
    refine ⟨fun h => h, fun _ => rfl, fun hERf _ _ => ?_⟩
    rw [hERf] at hg
    cases hg
  · have hreject : ∀ r : NavResult,
        navigate st navigation eff sel canc = ({ st with earlyReturn := false }, r) →
        ((navigate st navigation eff sel canc).1.index = j → st.index = j)
        ∧ (j ≠ st.index →
            slideVisible (navigate st navigation eff sel canc).1.slides j =
              slideVisible st.slides j)
        ∧ (st.earlyReturn = false → st.pending = none → j ≠ st.index →
            slideVisible (transitionEnd (navigate st navigation eff sel canc).1).slides j =
              slideVisible st.slides j) := by
      intro r heq
      rw [heq]
      refine ⟨fun h => h, fun _ => rfl, fun _ hpend _ => ?_⟩
      show slideVisible (transitionEnd { st with earlyReturn := false }).slides j =
        slideVisible st.slides j
      rw [transitionEnd_pending_none { st with earlyReturn := false } hpend]
    rcases hcase with ⟨_, heq⟩ | ⟨_, heq⟩ | ⟨ni, _, _, _, _, heq⟩ | ⟨ni, hC, hni, _, heq⟩
    · exact hreject _ heq
    · exact hreject _ heq
    · exact hreject _ heq
    · have hcond := navCond_eq_true _ _ _ (computeNewIndex_cond _ _ _ _ hC)
      have hnij : ni ≠ j := by
        intro h
        have h2 := hcond.2.2
        rw [h, hskip] at h2
        cases h2
      rw [heq]
      refine ⟨?_, fun hne => applyEffect_visible_other st ni _ _ j (Ne.symm hnij) hne,
        fun _ _ hne => applyEffect_transitionEnd_visible_other st ni _ _ j (Ne.symm hnij) hne⟩
      intro hidx
      rw [applyEffect_fst_index] at hidx
      exact absurd hidx hnij

/-- Concrete run of claim C5: navigating across a skip-marked middle slide
leaves it hidden. -/
theorem claim_C5_witness :
    slideVisible (navigate (initState defaults [false, true, false])
        "next" none (fun _ => true) false).1.slides 1 =
      slideVisible (initState defaults [false, true, false]).slides 1 :=
  (claim_C5_skip_excluded (initState defaults [false, true, false]) "next" none (fun _ => true)
    false 1 (by decide)).2.1 (by decide)

/-! ## The single-visible-slide invariant -/

/-- Exactly the child at position i is displayed. -/
def OneVisibleAux (slides : List Slide) (i : Nat) : Prop :=
  ∀ j, j < slides.length → (slideVisible slides j = true ↔ j = i)

/-- The reachable-state invariant of the navigator.  Idle (guard cleared):
no pending handler and exactly the current child displayed.  A pending
handler (guard set, mid fade or slide): the recorded outgoing child is a
real child different from the current one, and exactly those two children
are displayed. -/
def NavInv (st : Transitionable) : Prop :=
  (st.earlyReturn = false → st.pending = none ∧ OneVisibleAux st.slides st.index)
  ∧ (∀ outg, st.pending = some outg →
      st.earlyReturn = true ∧ outg ≠ st.index ∧ outg < st.slides.length ∧
      ∀ j, j < st.slides.length →
        (slideVisible st.slides j = true ↔ (j = st.index ∨ j = outg)))
  ∧ (1 ≤ st.slides.length → st.index < st.slides.length)

/-- Exactly one child is displayed. -/
def ExactlyOneVisible (st : Transitionable) : Prop :=
  ∃ j, j < st.slides.length ∧ slideVisible st.slides j = true ∧
    ∀ k, k < st.slides.length → slideVisible st.slides k = true → k = j

theorem length_initSlides (skips : List Bool) : (initSlides skips).length = skips.length := by
  cases skips <;> simp [initSlides]

theorem slideVisible_map_hidden (rest : List Bool) (m : Nat) :
    slideVisible (rest.map (fun k2 => ({ skip := k2, visible := false } : Slide))) m = false := by
  induction rest generalizing m with
  | nil => rfl
  | cons k tail ih =>
    cases m with
    | zero => rfl
    | succ m => exact ih m

theorem inv_initState (opts : Options) (skips : List Bool) : NavInv (initState opts skips) := by
  refine ⟨fun _ => ⟨rfl, ?_⟩, fun outg hp => by simp [initState] at hp, fun hn => ?_⟩
  · intro j hj
    cases skips with
    | nil => simp [initState, initSlides] at hj
    | cons k rest =>
      cases j with
      | zero => simp [initState, initSlides, slideVisible]
      | succ m =>
        have hv : slideVisible (initSlides (k :: rest)) (m + 1) = false :=
          slideVisible_map_hidden rest m
        show slideVisible (initSlides (k :: rest)) (m + 1) = true ↔ m + 1 = 0
        rw [hv]
        simp
  · have hn2 : 1 ≤ (initSlides skips).length := hn
    rw [length_initSlides] at hn2
    show 0 < (initSlides skips).length
    rw [length_initSlides]
    omega

theorem inv_navigate (st : Transitionable) (navigation : String) (eff : Option String)
    (sel : Nat → Bool) (canc : Bool) (h : NavInv st) :
    NavInv (navigate st navigation eff sel canc).1 := by
  rcases navigate_spec st navigation eff sel canc with ⟨_, heq⟩ | ⟨hER, hcase⟩
  · rw [heq]
    exact h
  · obtain ⟨hpend, hOne⟩ := h.1 hER
    have hreject : NavInv ({ st with earlyReturn := false } : Transitionable) := by
      refine ⟨fun _ => ⟨hpend, hOne⟩, fun outg hp => ?_, fun hn => h.2.2 hn⟩
      have hp2 : st.pending = some outg := hp
      rw [hpend] at hp2
      cases hp2
    rcases hcase with ⟨_, heq⟩ | ⟨_, heq⟩ | ⟨ni, _, _, _, _, heq⟩ | ⟨ni, hC, hni, _, heq⟩
    · rw [heq]
      exact hreject
    · rw [heq]
      exact hreject
    · rw [heq]
      exact hreject
    · rw [heq]
      have hcond := navCond_eq_true _ _ _ (computeNewIndex_cond _ _ _ _ hC)
      have hnilt : ni < st.slides.length := hcond.1
      have hidx : st.index < st.slides.length := h.2.2 (by omega)
      unfold applyEffect
      split
      · refine ⟨fun hfalse => by simp at hfalse, fun outg hp => ?_, fun _ => ?_⟩
        · have hp2 : some st.index = some outg := hp
          have ho : outg = st.index := (Option.some.inj hp2).symm
          subst ho
          refine ⟨rfl, Ne.symm hni, ?_, ?_⟩
          · show st.index < (setVisible st.slides ni true).length
            rw [length_setVisible]
            exact hidx
          · intro j hj
            have hj2 : j < st.slides.length := by
              have h3 : j < (setVisible st.slides ni true).length := hj
              rwa [length_setVisible] at h3
            show slideVisible (setVisible st.slides ni true) j = true ↔ (j = ni ∨ j = st.index)
            by_cases hjni : j = ni
            · subst hjni
              rw [slideVisible_setVisible_self _ _ _ hnilt]
              simp
            · rw [slideVisible_setVisible_ne _ _ _ _ hjni, hOne j hj2]
              simp [hjni]
        · show ni < (setVisible st.slides ni true).length
          rw [length_setVisible]
          exact hnilt
      · refine ⟨fun _ => ⟨rfl, ?_⟩, fun outg hp => by simp at hp, fun _ => ?_⟩
        · intro j hj
          have hj2 : j < st.slides.length := by
            have h3 : j < (setVisible (setVisible st.slides ni true) st.index false).length := hj
            rwa [length_setVisible, length_setVisible] at h3
          show slideVisible (setVisible (setVisible st.slides ni true) st.index false) j = true
            ↔ j = ni
          by_cases hjni : j = ni
          · subst hjni
            rw [slideVisible_setVisible_ne _ _ _ _ hni, slideVisible_setVisible_self _ _ _ hnilt]
            simp
          · by_cases hjx : j = st.index
            · subst hjx
              rw [slideVisible_setVisible_self]
              · simp [hjni]
              · rw [length_setVisible]
                exact hidx
            · rw [slideVisible_setVisible_ne _ _ _ _ hjx, slideVisible_setVisible_ne _ _ _ _ hjni,
                hOne j hj2]
              simp [hjx, hjni]
        · show ni < (setVisible (setVisible st.slides ni true) st.index false).length
          rw [length_setVisible, length_setVisible]
          exact hnilt

theorem inv_transitionEnd (st : Transitionable) (h : NavInv st) : NavInv (transitionEnd st) := by
  cases hp : st.pending with
  | none =>
    rw [transitionEnd_pending_none st hp]
    exact h
  | some outg =>
    obtain ⟨hg, houtne, houtlt, hvis⟩ := h.2.1 outg hp
    have hidx : st.index < st.slides.length := h.2.2 (by omega)
    have heq : transitionEnd st =
        { st with
            slides := setVisible st.slides outg false
            earlyReturn := false
            pending := none } := by
      unfold transitionEnd
      rw [hp]
    rw [heq]
    refine ⟨fun _ => ⟨rfl, ?_⟩, fun o2 hp2 => by simp at hp2, fun _ => ?_⟩
    · intro j hj
      have hj2 : j < st.slides.length := by
        have h3 : j < (setVisible st.slides outg false).length := hj
        rwa [length_setVisible] at h3
      show slideVisible (setVisible st.slides outg false) j = true ↔ j = st.index
      by_cases hjo : j = outg
      · subst hjo
        rw [slideVisible_setVisible_self _ _ _ houtlt]
        simp [houtne]
      · rw [slideVisible_setVisible_ne _ _ _ _ hjo, hvis j hj2]
        simp [hjo]
    · show st.index < (setVisible st.slides outg false).length
      rw [length_setVisible]
      exact hidx

theorem inv_exactly_one (st : Transitionable) (h : NavInv st) (hER : st.earlyReturn = false)
    (hn : 1 ≤ st.slides.length) : ExactlyOneVisible st := by
  obtain ⟨_, hOne⟩ := h.1 hER
  have hidx := h.2.2 hn
  exact ⟨st.index, hidx, (hOne st.index hidx).2 rfl, fun k hk hv => (hOne k hk).1 hv⟩

/-- Claim C9: the invariant - exactly one child displayed whenever the
navigator is Idle - holds after init and is preserved by every navigation
call (accepted or rejected) and by every transition completion; the
supporting invariant NavInv additionally tracks the mid-transition shape. -/
theorem claim_C9_one_visible_when_idle (opts : Options) (skips : List Bool)
    (st : Transitionable) (navigation : String) (eff : Option String) (sel : Nat → Bool)
    (canc : Bool) :
    NavInv (initState opts skips)
    ∧ (1 ≤ skips.length → ExactlyOneVisible (initState opts skips))
    ∧ (NavInv st → NavInv (navigate st navigation eff sel canc).1)
    ∧ (NavInv st → NavInv (transitionEnd st))
    ∧ (NavInv st → st.earlyReturn = false → 1 ≤ st.slides.length → ExactlyOneVisible st) := by
  refine ⟨inv_initState opts skips, ?_, inv_navigate st navigation eff sel canc,
    inv_transitionEnd st, inv_exactly_one st⟩
  intro hn
  refine inv_exactly_one _ (inv_initState opts skips) rfl ?_
  show 1 ≤ (initSlides skips).length
  rw [length_initSlides]
  exact hn

/-- Concrete run of claim C9: two freshly initialized slides have exactly
one visible. -/
theorem claim_C9_witness : ExactlyOneVisible (initState defaults [false, false]) :=
  (claim_C9_one_visible_when_idle defaults [false, false] (initState defaults [false, false])
    "next" none (fun _ => true) false).2.1 (by decide)
